import Mathlib

/-!
Verification of the HMOSeeker crawl engine against its specification.

The definitions below are shallow embeddings of the Python sources:
  - server/services/scraper.py (the PrimeLocation scraper, main path)
  - server/services/scraper_working.py (card-based extractor variant)
  - attached_assets/property_scraper_core_1754666073247.py (core variant)
  - zoopla_scraper.py (Zoopla variant)
Machine integers are modelled as Nat/Int, clock times and delays as rationals,
fallible operations as Option/Except, and the file system as an explicit
association list acted on by an operation trace.
-/

namespace HMOSeeker

/-! ## Character-level helpers shared by the regex-style scanners -/

def isSpaceChar (c : Char) : Bool :=
  c == ' ' || c == '\t' || c == '\n' || c == '\r' ||
  c == Char.ofNat 11 || c == Char.ofNat 12

def isWordChar (c : Char) : Bool := c.isAlphanum || c == '_'

def isDigitComma (c : Char) : Bool := c.isDigit || c == ','

def asciiLower (c : Char) : Char :=
  if 'A' ≤ c ∧ c ≤ 'Z' then Char.ofNat (c.toNat + 32) else c

def asciiUpper (c : Char) : Char :=
  if 'a' ≤ c ∧ c ≤ 'z' then Char.ofNat (c.toNat - 32) else c

def lowerChars (s : String) : List Char := s.data.map asciiLower

def digitsToNatAux (acc : ℕ) : List Char → ℕ
  | [] => acc
  | c :: rest => digitsToNatAux (acc * 10 + (c.toNat - 48)) rest

def digitsToNat (cs : List Char) : ℕ := digitsToNatAux 0 cs

def skipSpaces (s : List Char) : List Char := s.dropWhile isSpaceChar

/-- Match a literal character sequence at the head of the input, returning the
rest on success. -/
def matchLit : List Char → List Char → Option (List Char)
  | [], s => some s
  | _ :: _, [] => none
  | c :: ls, d :: s => if c = d then matchLit ls s else none

/-- A regex word boundary holds after a word character exactly when the
following input is empty or starts with a non-word character. -/
def boundaryOk : List Char → Bool
  | [] => true
  | c :: _ => !isWordChar c

/-- Consume exactly k characters satisfying p, returning consumed and rest. -/
def takeCount (p : Char → Bool) : ℕ → List Char → Option (List Char × List Char)
  | 0, s => some ([], s)
  | _ + 1, [] => none
  | k + 1, c :: s =>
    if p c then (takeCount p k s).map (fun q => (c :: q.1, q.2)) else none

/-! ## PropertyRecord and deduplication (scraper.py lines 916-927) -/

/-- The record dict assembled by parse_details / fetch_and_parse in
scraper.py: parse_details fills the first seven fields (lines 742-750), the
worker adds property_url and city (lines 871-872). -/
structure PropRecord where
  address : Option String
  postcode : Option String
  price : Int
  bedrooms : Option Int
  bathrooms : Option Int
  image_url : Option String
  description : Option String
  property_url : String
  city : String
  deriving DecidableEq, Repr

/-- The identity signature used by the dedup pass (scraper.py line 922):
sig = (r.get("property_url"), r.get("price"), r.get("bedrooms")). -/
def dedupSig (r : PropRecord) : String × Int × Option Int :=
  (r.property_url, r.price, r.bedrooms)

/-- The single pass of the dedup loop (scraper.py lines 918-927): keep a
record iff its signature has not been seen, growing the seen set. -/
def dedupAux (seen : List (String × Int × Option Int)) :
    List PropRecord → List PropRecord
  | [] => []
  | r :: rest =>
    if dedupSig r ∈ seen then dedupAux seen rest
    else r :: dedupAux (dedupSig r :: seen) rest

/-- Deduplication entry point: starts with an empty seen set. -/
def dedup (rs : List PropRecord) : List PropRecord := dedupAux [] rs

/-! ## Cache freshness (scraper.py lines 219-224) -/

/-- cache_fresh: false when the file is missing; otherwise fresh iff
now - mtime < ttl. Times are in hours on a single clock, mirroring
datetime.utcnow() - mtime < timedelta(hours=ttl_hours). -/
def cache_fresh (mtime : Option ℚ) (now : ℚ) (ttlHours : ℚ) : Bool :=
  match mtime with
  | none => false
  | some m => decide (now - m < ttlHours)

/-! ## Crawl-level caching control flow (scraper.py lines 768-773, 931-937) -/

structure CacheEntry where
  records : List PropRecord
  writtenAt : ℚ
  deriving DecidableEq

structure ScrapeOutcome where
  records : List PropRecord
  cached : Bool
  networkCalls : ℕ
  cacheAfter : Option CacheEntry
  deriving DecidableEq

def entry_fresh (e : Option CacheEntry) (now ttl : ℚ) : Bool :=
  cache_fresh (e.map CacheEntry.writtenAt) now ttl

/-- Control flow of scrape_primelocation around the cache: with REFRESH unset
and a fresh cache file the cached records are returned with cached=true and no
network fetch (lines 768-773); otherwise the crawl runs (crawlRecords and
crawlCalls abstract the network phase), the deduplicated results are written
to the cache file (lines 916-934) and cached=false is reported (line 937). -/
def scrape_run (refresh : Bool) (cacheBefore : Option CacheEntry) (now ttl : ℚ)
    (crawlRecords : List PropRecord) (crawlCalls : ℕ) : ScrapeOutcome :=
  if (!refresh && entry_fresh cacheBefore now ttl) = true then
    { records := (cacheBefore.map CacheEntry.records).getD []
      cached := true
      networkCalls := 0
      cacheAfter := cacheBefore }
  else
    let uniq := dedup crawlRecords
    { records := uniq
      cached := false
      networkCalls := crawlCalls
      cacheAfter := some { records := uniq, writtenAt := now } }

/-! ## Fetcher attempt classification and backoff (scraper.py lines 511-549) -/

inductive HttpResult where
  | response (code : ℕ) (hasContent : Bool)
  | netError
  deriving DecidableEq, Repr

inductive AttemptResult where
  | success
  | retryBlocked (wait : ℚ)
  | retryOther (wait : ℚ)
  deriving DecidableEq, Repr

/-- The wait computed on an anti-bot status (scraper.py line 530):
backoff_time = 1.0 + attempt * 0.8 + random(), with jitter in [0, 1). -/
def blocked_backoff (attempt : ℕ) (jitter : ℚ) : ℚ :=
  1 + (attempt : ℚ) * (8 / 10) + jitter

/-- One attempt of the get_html loop (scraper.py lines 525-541): 200 with a
body succeeds; 403/429 back off by blocked_backoff and retry; any other code
sleeps 0.2 + attempt*0.2 and retries; a network error sleeps 1.0 + attempt. -/
def attempt_step (attempt : ℕ) (jitter : ℚ) : HttpResult → AttemptResult
  | .response code hasContent =>
    if code = 200 ∧ hasContent = true then .success
    else if code = 403 ∨ code = 429 then
      .retryBlocked (blocked_backoff attempt jitter)
    else .retryOther (1 / 5 + (attempt : ℚ) * (1 / 5))
  | .netError => .retryOther (1 + (attempt : ℚ))

/-! ## Worker-pool concurrency (scraper.py lines 862, 878-914) -/

/-- as_int(val, default): int(val) with the default on failure; the input is
the already-parsed environment value. -/
def as_int (v : Option Int) (d : Int) : Int := v.getD d

/-- Pool size of the detail-fetch phase (line 862): PL_WORKERS, default 16. -/
def detail_workers (envWorkers : Option Int) : Int := as_int envWorkers 16

/-- The concurrency limit as a function of the Blocked outcomes observed so
far in a run: the ThreadPoolExecutor is created once with max_workers
(line 878) and no statement in the completion loop (lines 879-914) resizes it,
so the limit is the constant initial value. -/
def current_limit_after (initial : ℕ) (blockedOutcomes : ℕ) : ℕ := initial

/-! ## File-system trace model for the cache write (scraper.py 211-216, 933-934) -/

/-- cache_path_for (scraper.py lines 211-216); the sha1-prefix digest of the
sorted filter JSON is abstracted as the stamp parameter. -/
def cache_path_for (citySlug stamp : String) : String :=
  "cache/primelocation/" ++ citySlug ++ "/search_" ++ stamp ++ ".json"

inductive FsOp where
  | openTrunc (path : String)
  | writeAll (path : String) (content : String)
  | rename (src dst : String)
  deriving DecidableEq, Repr

def FsOp.isRename : FsOp → Bool
  | .rename _ _ => true
  | _ => false

/-- File system as an association list; the first binding of a path wins and
a none binding marks a deleted file. -/
abbrev FileSys := List (String × Option String)

def fsGet (fs : FileSys) (p : String) : Option String :=
  match fs.find? (fun kv => kv.1 == p) with
  | some kv => kv.2
  | none => none

def applyOp (fs : FileSys) : FsOp → FileSys
  | .openTrunc p => (p, some "") :: fs
  | .writeAll p c => (p, some c) :: fs
  | .rename s d => (d, fsGet fs s) :: (s, none) :: fs

def runOps (fs : FileSys) : List FsOp → FileSys
  | [] => fs
  | op :: rest => runOps (applyOp fs op) rest

/-- Every file-system state reached while executing a trace, the initial and
final states included; any of these is observable by a concurrent reader. -/
def statesOf (fs : FileSys) : List FsOp → List FileSys
  | [] => [fs]
  | op :: rest => fs :: statesOf (applyOp fs op) rest

/-- The cache write of scrape_primelocation (lines 933-934): the final path
is opened with mode w, truncating it, and the serialized records are written;
there is no temporary file and no rename. -/
def cache_put_ops (path content : String) : List FsOp :=
  [.openTrunc path, .writeAll path content]

/-- A trace replaces path atomically when every observable state shows either
the old or the new content at path. -/
def atomicReplace (fs0 : FileSys) (ops : List FsOp) (path old new : String) : Prop :=
  ∀ s ∈ statesOf fs0 ops, fsGet s path = some old ∨ fsGet s path = some new

/-! ## Cache-consult prelude and corrupt files (scraper.py lines 768-773) -/

inductive CacheFileContent where
  | valid (records : List PropRecord)
  | corrupt
  deriving DecidableEq

inductive CrawlStart where
  | fromCache (records : List PropRecord)
  | proceedCrawl
  deriving DecidableEq

/-- The cache-consult prelude of scrape_primelocation: with REFRESH unset and
cache_fresh true the file is opened and json.load parses it with no exception
handler, so a corrupt or unreadable file raises (Except.error); with a missing
or stale file the crawl proceeds as uncached. A cache file is a pair of its
mtime and its content. -/
def scrape_cache_consult (refresh : Bool)
    (file : Option (ℚ × CacheFileContent)) (now ttl : ℚ) :
    Except Unit CrawlStart :=
  if (!refresh && cache_fresh (file.map Prod.fst) now ttl) = true then
    match file with
    | some (_, .valid recs) => .ok (.fromCache recs)
    | some (_, .corrupt) => .error ()
    | none => .ok .proceedCrawl
  else
    .ok .proceedCrawl

/-! ## Price extraction (scraper.py lines 229, 235-254) -/

def poundChar : Char := Char.ofNat 163

/-- The tail of PRICE_RE after the pound sign: an optional single whitespace,
then a nonempty run of digits and commas, captured greedily. -/
def poundAt (rest : List Char) : Option (List Char) :=
  match rest with
  | [] => none
  | c :: rest2 =>
    if isSpaceChar c then
      let cap := rest2.takeWhile isDigitComma
      if cap.isEmpty then none else some cap
    else
      let cap := (c :: rest2).takeWhile isDigitComma
      if cap.isEmpty then none else some cap

/-- re.search with PRICE_RE ([£]\s?([\d,]+), line 229): the first pound sign
whose tail matches yields the captured digit-and-comma run. -/
def poundCapture : List Char → Option (List Char)
  | [] => none
  | c :: rest =>
    if c = poundChar then (poundAt rest) <|> poundCapture rest
    else poundCapture rest

/-- One or more ",ddd" groups consumed greedily; returns the digits collected
and the rest of the input after the consumed groups. -/
def commaGroups : List Char → List Char × List Char
  | ',' :: a :: b :: c :: rest =>
    if a.isDigit && b.isDigit && c.isDigit then
      let q := commaGroups rest
      (a :: b :: c :: q.1, q.2)
    else ([], ',' :: a :: b :: c :: rest)
  | other => ([], other)

/-- The comma-grouped pattern continued after a lead of 1-3 digits: at least
one ",ddd" group, then a word boundary; when the boundary fails after the
greedy groups, regex backtracking drops the last group (the boundary before a
comma then holds), which needs at least two groups. -/
def tryCommaLead (lead rest : List Char) : Option ℕ :=
  match rest with
  | ',' :: r2 =>
    let q := commaGroups (',' :: r2)
    if q.1.isEmpty then none
    else if boundaryOk q.2 then some (digitsToNat (lead ++ q.1))
    else if 6 ≤ q.1.length then
      some (digitsToNat (lead ++ q.1.take (q.1.length - 3)))
    else none
  | _ => none

/-- \d{1,3}(?:,\d{3})+\b at one position, trying lead lengths greedily. -/
def tryCommaAt (s : List Char) : Option ℕ :=
  ([3, 2, 1].findSome? fun k =>
    match takeCount Char.isDigit k s with
    | some q => tryCommaLead q.1 q.2
    | none => none)

/-- re.search with \b(\d{1,3}(?:,\d{3})+)\b (line 240): scan positions left to
right, a match may only start where the previous character is not a word
character. -/
def commaGroupScanAux (prevWord : Bool) : List Char → Option ℕ
  | [] => none
  | c :: rest =>
    (if !prevWord then tryCommaAt (c :: rest) else none) <|>
    commaGroupScanAux (isWordChar c) rest

/-- re.search with \b(\d{4,})\b (line 243): a maximal digit run of length at
least 4 delimited by word boundaries on both sides. -/
def bigNumScanAux (prevWord : Bool) : List Char → Option ℕ
  | [] => none
  | c :: rest =>
    (if !prevWord && c.isDigit then
      let run := (c :: rest).takeWhile Char.isDigit
      let after := (c :: rest).drop run.length
      if 4 ≤ run.length && boundaryOk after then some (digitsToNat run)
      else none
     else none) <|>
    bigNumScanAux (isWordChar c) rest

/-- extract_price body (scraper.py lines 235-254) on the character list: the
pound pattern wins; a captured run holding no digit reproduces int("")
raising ValueError, which the except clause maps to 0 without trying the
fallback patterns. -/
def extract_price_chars (s : List Char) : ℕ :=
  match poundCapture s with
  | some cap =>
    let digits := cap.filter Char.isDigit
    if digits.isEmpty then 0 else digitsToNat digits
  | none =>
    match commaGroupScanAux false s with
    | some v => v
    | none =>
      match bigNumScanAux false s with
      | some v => v
      | none => 0

/-- extract_price with the Python calling convention: None and the empty
string are falsy and return 0 (line 236). -/
def extract_price (t : Option String) : ℕ :=
  match t with
  | none => 0
  | some s => if s.data.isEmpty then 0 else extract_price_chars s.data

/-! ## Area extraction (attached_assets property_scraper_core lines 148-183) -/

def sup2Char : Char := Char.ofNat 178

def nbspChar : Char := Char.ofNat 160

def sqChars : List Char := ['s', 'q']

def squareChars : List Char := ['s', 'q', 'u', 'a', 'r', 'e']

def dropDot : List Char → List Char
  | '.' :: r => r
  | s => s

/-- First alternative set of _SQM_PAT: sq\.?\s*m | sqm | square\s*metres |
square\s*meters (the sqm literal is already matched by the first branch). -/
def matchSqmUnit1 (u : List Char) : Bool :=
  (match matchLit sqChars u with
   | some u1 => (matchLit ['m'] (skipSpaces (dropDot u1))).isSome
   | none => false) ||
  (match matchLit squareChars u with
   | some u1 =>
     (matchLit ['m', 'e', 't', 'r', 'e', 's'] (skipSpaces u1)).isSome ||
     (matchLit ['m', 'e', 't', 'e', 'r', 's'] (skipSpaces u1)).isSome
   | none => false)

/-- Second _SQM_PAT: (?:m²|m2)\b; the final character is a word character so
the boundary needs a non-word character or the end next. -/
def matchSqmUnit2 (u : List Char) : Bool :=
  (match matchLit ['m', sup2Char] u with
   | some r => boundaryOk r
   | none => false) ||
  (match matchLit ['m', '2'] u with
   | some r => boundaryOk r
   | none => false)

/-- First _SQFT_PAT: sq\.?\s*ft | sqft | square\s*feet. -/
def matchSqftUnit1 (u : List Char) : Bool :=
  (match matchLit sqChars u with
   | some u1 => (matchLit ['f', 't'] (skipSpaces (dropDot u1))).isSome
   | none => false) ||
  (match matchLit squareChars u with
   | some u1 => (matchLit ['f', 'e', 'e', 't'] (skipSpaces u1)).isSome
   | none => false)

/-- Second _SQFT_PAT: square\s*foot | sq\s*ft. -/
def matchSqftUnit2 (u : List Char) : Bool :=
  (match matchLit squareChars u with
   | some u1 => (matchLit ['f', 'o', 'o', 't'] (skipSpaces u1)).isSome
   | none => false) ||
  (match matchLit sqChars u with
   | some u1 => (matchLit ['f', 't'] (skipSpaces u1)).isSome
   | none => false)

/-- The optional ",ddd" group of the area number. -/
def areaWithGroup (lead rest : List Char) : Option (ℕ × List Char) :=
  match rest with
  | ',' :: a :: b :: c :: r =>
    if a.isDigit && b.isDigit && c.isDigit then
      some (digitsToNat (lead ++ [a, b, c]), r)
    else none
  | _ => none

/-- Candidate matches of \d{2,4}(?:,\d{3})? at one position, in regex
backtracking order: longer digit leads first, the optional comma group
present before absent. -/
def areaNumCandidates (s : List Char) : List (ℕ × List Char) :=
  (([4, 3, 2].map fun k =>
    match takeCount Char.isDigit k s with
    | some q =>
      (match areaWithGroup q.1 q.2 with
       | some p => [p]
       | none => []) ++ [(digitsToNat q.1, q.2)]
    | none => [])).flatten

/-- Try the full area pattern at one position: number, \s*, unit. -/
def tryAreaAt (unitMatch : List Char → Bool) (s : List Char) : Option ℕ :=
  (areaNumCandidates s).findSome? fun p =>
    if unitMatch (skipSpaces p.2) then some p.1 else none

/-- re.search for one area pattern: leftmost position wins. -/
def areaScan (unitMatch : List Char → Bool) : List Char → Option ℕ
  | [] => none
  | c :: rest => (tryAreaAt unitMatch (c :: rest)) <|> areaScan unitMatch rest

/-- t.replace NBSP with a space (line 165) composed with lowercasing, which
models re.IGNORECASE for the ASCII patterns. -/
def normalizeAreaText (s : String) : List Char :=
  s.data.map fun c => if c = nbspChar then ' ' else asciiLower c

/-- int(round(sqft * 0.092903)) (line 179) on exact rationals, rounding half
up; the float product never lands exactly on .5 for the representable
inputs of the pattern. -/
def sqftToSqm (n : ℕ) : ℕ := (n * 92903 + 500000) / 1000000

/-- extract_area_sqm (lines 162-183): the _SQM_PAT searches run first and a
match returns immediately (val if val > 0 else None), then the _SQFT_PAT
searches with the converted value. -/
def extract_area_sqm (t : Option String) : Option ℕ :=
  match t with
  | none => none
  | some s =>
    match areaScan matchSqmUnit1 (normalizeAreaText s) with
    | some v => if 0 < v then some v else none
    | none =>
      match areaScan matchSqmUnit2 (normalizeAreaText s) with
      | some v => if 0 < v then some v else none
      | none =>
        match areaScan matchSqftUnit1 (normalizeAreaText s) with
        | some v => if 0 < sqftToSqm v then some (sqftToSqm v) else none
        | none =>
          match areaScan matchSqftUnit2 (normalizeAreaText s) with
          | some v => if 0 < sqftToSqm v then some (sqftToSqm v) else none
          | none => none

/-! ## UK postcode extraction (scraper.py lines 232, 264-268) -/

/-- One shape of POSTCODE_RE \b([A-Z]{1,2}\d[A-Z\d]?\s?\d[A-Z]{2})\b with the
three optional parts fixed: l letters, a digit, m alnum characters, sp
whitespace characters, a digit, two letters, then a trailing boundary.
Returns the captured characters. -/
def pcCombo (l m sp : ℕ) (s : List Char) : Option (List Char) := do
  let qa ← takeCount Char.isAlpha l s
  let qb ← takeCount Char.isDigit 1 qa.2
  let qc ← takeCount Char.isAlphanum m qb.2
  let qd ← takeCount isSpaceChar sp qc.2
  let qe ← takeCount Char.isDigit 1 qd.2
  let qf ← takeCount Char.isAlpha 2 qe.2
  if boundaryOk qf.2 then
    some (qa.1 ++ qb.1 ++ qc.1 ++ qd.1 ++ qe.1 ++ qf.1)
  else none

/-- All combinations of the optional parts, in backtracking order: the
leading [A-Z]{1,2} backtracks last, the optional whitespace first. -/
def tryPostcodeAt (s : List Char) : Option (List Char) :=
  ([(2, 1, 1), (2, 1, 0), (2, 0, 1), (2, 0, 0),
    (1, 1, 1), (1, 1, 0), (1, 0, 1), (1, 0, 0)].findSome?
    fun t : ℕ × ℕ × ℕ => pcCombo t.1 t.2.1 t.2.2 s)

/-- re.search with POSTCODE_RE: a match starts at a letter preceded by a
non-word character or the start. -/
def postcodeScanAux (prevWord : Bool) : List Char → Option (List Char)
  | [] => none
  | c :: rest =>
    (if !prevWord then tryPostcodeAt (c :: rest) else none) <|>
    postcodeScanAux (isWordChar c) rest

/-- extract_postcode (scraper.py lines 264-268): None or empty text gives
None, else the first POSTCODE_RE match uppercased. -/
def extract_postcode (t : Option String) : Option String :=
  match t with
  | none => none
  | some s =>
    if s.data.isEmpty then none
    else (postcodeScanAux false s.data).map fun cs =>
      String.mk (cs.map asciiUpper)

/-! ## Detail-page parsing (scraper.py lines 634-750) -/

/-- The signals parse_details reads from the soup of one detail page. Each
Option field is the value of the corresponding query when it is present and
non-empty (Python treats an empty string as missing via truthiness):
h1_text is the text of the first h1; og_title / twitter_title the matching
meta contents; ld_name the JSON-LD name when it is a string; ld_offers_price
the offers price after digit-stripping and int conversion when that
succeeds; ld_ints the JSON-LD fields that int() accepts, as an ordered
association list; ld_postal the postalCode of a JSON-LD address dict;
og_image the og:image content; imgs the (src, data-src) attribute pairs of
the img elements in document order; desc_blocks the texts of the
description-selector node list; text the whole-page text. -/
structure DetailPage where
  h1_text : Option String
  og_title : Option String
  twitter_title : Option String
  ld_name : Option String
  ld_offers_price : Option Int
  ld_ints : List (String × Int)
  ld_postal : Option String
  og_image : Option String
  imgs : List (Option String × Option String)
  desc_blocks : List String
  text : String
  deriving DecidableEq, Repr

def ldLookup (page : DetailPage) (key : String) : Option Int :=
  (page.ld_ints.find? (fun kv => kv.1 == key)).map Prod.snd

/-- The `for key in (...): try: int(ld.get(key)); break` loops. -/
def firstLd (page : DetailPage) : List String → Option Int
  | [] => none
  | k :: ks => (ldLookup page k) <|> firstLd page ks

/-- re.search with (\d+)\s*kw (BED_RE and BATH_RE, lines 230-231, applied to
lowercased text to model re.IGNORECASE): the first maximal digit run followed
by optional whitespace and the keyword. -/
def numBeforeKw (kw : List Char) : List Char → Option ℕ
  | [] => none
  | c :: rest =>
    (if c.isDigit then
      let run := (c :: rest).takeWhile Char.isDigit
      let after := (c :: rest).drop run.length
      if (matchLit kw (skipSpaces after)).isSome then some (digitsToNat run)
      else none
     else none) <|>
    numBeforeKw kw rest

def bedKeys : List String := ["numberOfBedrooms", "bedrooms", "numberOfRooms"]

def bathKeys : List String := ["numberOfBathroomsTotal", "bathrooms"]

def bedLit : List Char := ['b', 'e', 'd']

def bathLit : List Char := ['b', 'a', 't', 'h']

/-- extract_first_int(regex, text) followed by `or None` (lines 696, 708):
a matched 0 is falsy and becomes None. -/
def textNumField (kw : List Char) (text : String) : Option Int :=
  match numBeforeKw kw (lowerChars text) with
  | some 0 => none
  | some n => some (n : Int)
  | none => none

/-- Address resolution (lines 652-671): h1 text when longer than 8, else
og:title, else twitter:title, else the JSON-LD name. -/
def details_address (page : DetailPage) : Option String :=
  (match page.h1_text with
   | some t => if 8 < t.length then some t else none
   | none => none) <|> page.og_title <|> page.twitter_title <|> page.ld_name

/-- Price resolution (lines 674-684): JSON-LD offers price, else
extract_price over the page text. -/
def details_price (page : DetailPage) : Int :=
  match page.ld_offers_price with
  | some p => p
  | none => (extract_price (some page.text) : Int)

/-- Bedroom resolution (lines 687-696). -/
def details_bedrooms (page : DetailPage) : Option Int :=
  (firstLd page bedKeys) <|> textNumField bedLit page.text

/-- Bathroom resolution (lines 699-708). -/
def details_bathrooms (page : DetailPage) : Option Int :=
  (firstLd page bathKeys) <|> textNumField bathLit page.text

/-- Postcode resolution (lines 711-715): JSON-LD postalCode, else
extract_postcode over the address or, failing that, the page text. -/
def details_postcode (page : DetailPage) : Option String :=
  match page.ld_postal with
  | some pc => some pc
  | none => extract_postcode (some ((details_address page).getD page.text))

/-- Image resolution tail (lines 723-729): first img whose src (or data-src
fallback) starts with http. -/
def firstHttpImg : List (Option String × Option String) → Option String
  | [] => none
  | (src, dataSrc) :: rest =>
    match src <|> dataSrc with
    | some s => if s.data.take 4 = ['h', 't', 't', 'p'] then some s
                else firstHttpImg rest
    | none => firstHttpImg rest

/-- Image resolution (lines 717-729): og:image first. -/
def details_image (page : DetailPage) : Option String :=
  page.og_image <|> firstHttpImg page.imgs

/-- Description resolution (lines 731-740): join the description blocks
longer than 40 characters and truncate to 2000. -/
def details_description (page : DetailPage) : Option String :=
  match page.desc_blocks.filter (fun t => 40 < t.length) with
  | [] => none
  | bits => some ((String.intercalate (" ") bits).take 2000)

/-- The record returned by parse_details (lines 742-750). -/
structure ParsedDetails where
  address : Option String
  postcode : Option String
  price : Int
  bedrooms : Option Int
  bathrooms : Option Int
  image_url : Option String
  description : Option String
  deriving DecidableEq, Repr

def parse_details (page : DetailPage) : ParsedDetails :=
  { address := details_address page
    postcode := details_postcode page
    price := details_price page
    bedrooms := details_bedrooms page
    bathrooms := details_bathrooms page
    image_url := details_image page
    description := details_description page }

/-- The description filler the caller applies (scraper.py lines 891,
906-907): property_beds = bedrooms or 0; a missing or empty description is
replaced by "{property_beds or min_beds}-bed property in {city}.". -/
def fill_description (rec : ParsedDetails) (minBeds : Int) (city : String) :
    ParsedDetails :=
  let beds : Int := match rec.bedrooms with
    | some b => if b = 0 then minBeds else b
    | none => minBeds
  let filler : String := toString beds ++ "-bed property in " ++ city ++ "."
  match rec.description with
  | some d =>
    if d.data.isEmpty then { rec with description := some filler } else rec
  | none => { rec with description := some filler }

/-! ## scraper_working.py card extractor (lines 394-416) -/

/-- The fields of the dict assembled by extract_property_from_card that the
surrounding code does not read from the card at all, plus bedrooms. -/
structure CardRecord where
  bedrooms : Int
  bathrooms : Int
  description : String
  listing_id : String
  tenure : String
  agent_name : String
  postcode : Option String
  deriving DecidableEq, Repr

def agentPool : List String :=
  ["Connells", "Leaders", "Hunters", "Martin & Co", "Belvoir"]

/-- extract_property_from_card output (scraper_working.py lines 394-416):
bedrooms defaults to 4 when missing or 0 (bedrooms or 4), bathrooms is
always max(1, bedrooms - 2), tenure is a coin flip between Freehold and
Leasehold, agent_name a random pick from a fixed pool, listing_id the id
parsed from the URL or a random 8-digit number, postcode always None.
Inputs are the card-derived values (None when the card lacks them) and the
random draws the code makes. -/
def extract_property_from_card (bedroomsFound : Option Int)
    (urlId : Option String) (city : String) (tenureRandAbove03 : Bool)
    (agentPick : Fin 5) (randId : ℕ) : CardRecord :=
  let beds : Int := match bedroomsFound with
    | some b => if b = 0 then 4 else b
    | none => 4
  { bedrooms := beds
    bathrooms := max 1 (beds - 2)
    description := "Excellent " ++ toString beds ++ " bedroom property in " ++
      city ++ ". Perfect for HMO investment."
    listing_id := urlId.getD (toString randId)
    tenure := if tenureRandAbove03 then "Freehold" else "Leasehold"
    agent_name := agentPool.getD agentPick.val ("")
    postcode := none }

/-! ## Concrete demonstration values used by the witnesses -/

def demoRec1 : PropRecord :=
  { address := some ("1 High St"), postcode := none, price := 250000
    bedrooms := some 4, bathrooms := none, image_url := none
    description := some ("first copy"), property_url := "u1", city := "leeds" }

def demoRec1b : PropRecord :=
  { address := some ("1 High Street"), postcode := none, price := 250000
    bedrooms := some 4, bathrooms := none, image_url := none
    description := some ("second copy"), property_url := "u1", city := "leeds" }

def demoRec2 : PropRecord :=
  { address := some ("2 Low Rd"), postcode := none, price := 400000
    bedrooms := some 3, bathrooms := none, image_url := none
    description := none, property_url := "u2", city := "leeds" }

/-- A detail page carrying no usable signal for any field. -/
def emptyPage : DetailPage :=
  { h1_text := none, og_title := none, twitter_title := none, ld_name := none
    ld_offers_price := none, ld_ints := [], ld_postal := none
    og_image := none, imgs := [], desc_blocks := []
    text := "no info on this page" }

/-! # Helper lemmas about the dedup pass -/

theorem dedupAux_sublist (seen : List (String × Int × Option Int))
    (rs : List PropRecord) : (dedupAux seen rs).Sublist rs := by
  induction rs generalizing seen with
  | nil => simp [dedupAux]
  | cons r rest ih =>
    simp only [dedupAux]
    split
    · exact (ih seen).cons r
    · exact (ih _).cons₂ r

theorem dedupAux_countP (seen : List (String × Int × Option Int))
    (rs : List PropRecord) (s : String × Int × Option Int) :
    (dedupAux seen rs).countP (fun r => decide (dedupSig r = s)) =
      if s ∈ seen then 0 else if s ∈ rs.map dedupSig then 1 else 0 := by
  induction rs generalizing seen with
  | nil => simp [dedupAux]
  | cons r rest ih =>
    simp only [dedupAux]
    split
    · rename_i hmem
      rw [ih]
      by_cases hs : s ∈ seen
      · simp [hs]
      · have hne : ¬ s = dedupSig r := fun h => hs (h ▸ hmem)
        simp [hs, hne]
    · rename_i hmem
      rw [List.countP_cons, ih]
      by_cases hs : s = dedupSig r
      · subst hs
        simp [hmem]
      · have hs2 : ¬ dedupSig r = s := fun h => hs h.symm
        by_cases hin : s ∈ seen
        · simp [hs, hs2, hin]
        · simp [hs, hs2, hin]

theorem dedupAux_keeps_first (rs : List PropRecord)
    (seen : List (String × Int × Option Int)) (i : ℕ) (h : i < rs.length)
    (hseen : dedupSig (rs.get ⟨i, h⟩) ∉ seen)
    (hfirst : ∀ j, (hj : j < i) →
      dedupSig (rs.get ⟨j, Nat.lt_trans hj h⟩) ≠ dedupSig (rs.get ⟨i, h⟩)) :
    rs.get ⟨i, h⟩ ∈ dedupAux seen rs := by
  induction rs generalizing seen i with
  | nil => exact absurd h (Nat.not_lt_zero i)
  | cons r rest ih =>
    cases i with
    | zero =>
      simp only [List.get] at hseen ⊢
      simp only [dedupAux, if_neg hseen]
      exact List.mem_cons_self r _
    | succ i =>
      have h2 : i < rest.length := Nat.lt_of_succ_lt_succ h
      simp only [List.get] at hseen hfirst ⊢
      simp only [dedupAux]
      split
      · exact ih seen i h2 hseen
          (fun j hj => hfirst (j + 1) (Nat.succ_lt_succ hj))
      · refine List.mem_cons_of_mem r
          (ih _ i h2 ?_ (fun j hj => hfirst (j + 1) (Nat.succ_lt_succ hj)))
        intro hmem
        rcases List.mem_cons.mp hmem with he | hin
        · exact hfirst 0 (Nat.succ_pos i) he.symm
        · exact hseen hin

/-! # Claim theorems -/

/-- C1: the deduplication pass is a single order-preserving pass keyed on
(property_url, price, bedrooms) in which the first occurrence wins: the
output is a sublist of the input, every signature occurring in the input
occurs exactly once in the output (so two records with identical signatures
collapse to one, and distinct signatures are all kept), the first occurrence
of each signature is the record kept, and the empty input yields the empty
output. -/
theorem c1_dedup_first_occurrence_wins :
    dedup ([] : List PropRecord) = [] ∧
    ∀ rs : List PropRecord,
      (dedup rs).Sublist rs ∧
      (∀ s, s ∈ rs.map dedupSig →
        (dedup rs).countP (fun r => decide (dedupSig r = s)) = 1) ∧
      (∀ i, (h : i < rs.length) →
        (∀ j, (hj : j < i) →
          dedupSig (rs.get ⟨j, Nat.lt_trans hj h⟩) ≠ dedupSig (rs.get ⟨i, h⟩)) →
        rs.get ⟨i, h⟩ ∈ dedup rs) := by
  refine ⟨rfl, fun rs => ⟨dedupAux_sublist [] rs, fun s hs => ?_, ?_⟩⟩
  · rw [dedup, dedupAux_countP]
    simp [hs]
  · intro i h hfirst
    exact dedupAux_keeps_first rs [] i h (List.not_mem_nil _) hfirst

/-- C1 witness: on a concrete list holding two records with the signature of
demoRec1 and one with a distinct signature, the output contains the
duplicated signature exactly once, and the first record with it is kept. -/
theorem c1_dedup_first_occurrence_wins_witness :
    (dedup [demoRec1, demoRec2, demoRec1b]).countP
      (fun r => decide (dedupSig r = dedupSig demoRec1)) = 1 ∧
    [demoRec1, demoRec2, demoRec1b].get ⟨0, by decide⟩
      ∈ dedup [demoRec1, demoRec2, demoRec1b] :=
  ⟨(c1_dedup_first_occurrence_wins.2 [demoRec1, demoRec2, demoRec1b]).2.1
      (dedupSig demoRec1) (by decide),
   (c1_dedup_first_occurrence_wins.2 [demoRec1, demoRec2, demoRec1b]).2.2
      0 (by decide) (fun j hj => absurd hj (Nat.not_lt_zero j))⟩

/-- C5: a cache entry is fresh iff the elapsed time since it was written is
strictly below the TTL; for a TTL of 12 hours an entry written at T is
reported fresh at T+1h and stale at T+13h. -/
theorem c5_cache_freshness :
    (∀ m now ttl : ℚ, cache_fresh (some m) now ttl = true ↔ now - m < ttl) ∧
    (∀ t : ℚ, cache_fresh (some t) (t + 1) 12 = true ∧
      cache_fresh (some t) (t + 13) 12 = false) := by
  constructor
  · intro m now ttl
    simp [cache_fresh]
  · intro t
    refine ⟨?_, ?_⟩ <;> simp only [cache_fresh, decide_eq_true_eq,
      decide_eq_false_iff_not] <;> norm_num

/-- C9 counterexample: the claim predicts that Blocked outcomes beyond the
threshold of 4 halve the current limit, so 5 Blocked outcomes at the default
limit of 16 would leave limit 8; the code never resizes the pool and the
limit stays 16. -/
theorem c9_adaptive_concurrency_counterexample :
    current_limit_after 16 5 = 16 ∧ current_limit_after 16 5 ≠ 8 := by
  exact ⟨rfl, by decide⟩

/-- C9 amended: within a single crawl run the concurrency limit is the
constant pool size fixed at creation (PL_WORKERS, default 16): it never
increases, but it also never decreases — there is no halving on Blocked
outcomes and no floor logic. -/
theorem c9_limit_constant_never_increases :
    (∀ envWorkers : Option Int, detail_workers envWorkers =
      (envWorkers.getD 16 : Int)) ∧
    ∀ initial blocked : ℕ,
      current_limit_after initial blocked = initial ∧
      current_limit_after initial blocked ≤ initial := by
  exact ⟨fun envWorkers => rfl, fun initial blocked => ⟨rfl, le_refl initial⟩⟩

/-- C2: calling the crawl twice with an identical configuration and no
force-refresh flag, the second call while the entry written by the first is
still within its TTL, returns records identical to the first call with
metadata cached=true and zero network calls - whatever the network would
have returned on the second call. -/
theorem c2_idempotent_caching (c0 : Option CacheEntry) (t0 t1 ttl : ℚ)
    (recs1 recs2 : List PropRecord) (calls1 calls2 : ℕ)
    (h : entry_fresh (scrape_run false c0 t0 ttl recs1 calls1).cacheAfter
      t1 ttl = true) :
    (scrape_run false (scrape_run false c0 t0 ttl recs1 calls1).cacheAfter
        t1 ttl recs2 calls2).records
      = (scrape_run false c0 t0 ttl recs1 calls1).records ∧
    (scrape_run false (scrape_run false c0 t0 ttl recs1 calls1).cacheAfter
        t1 ttl recs2 calls2).cached = true ∧
    (scrape_run false (scrape_run false c0 t0 ttl recs1 calls1).cacheAfter
        t1 ttl recs2 calls2).networkCalls = 0 := by
  by_cases h0 : entry_fresh c0 t0 ttl = true
  · simp [scrape_run, h0] at h
    simp [scrape_run, h0, h]
  · simp [scrape_run, h0] at h
    simp [scrape_run, h0, h]

/-- C2 witness: starting uncached at time 0, a second identical call at time
1 with TTL 12 returns the records of the first call from cache with zero
network calls, although the abstract network now returns nothing. -/
theorem c2_idempotent_caching_witness :
    (scrape_run false
        (scrape_run false none 0 12 [demoRec1, demoRec1b] 7).cacheAfter
        0 12 [] 5).records
      = (scrape_run false none 0 12 [demoRec1, demoRec1b] 7).records ∧
    (scrape_run false
        (scrape_run false none 0 12 [demoRec1, demoRec1b] 7).cacheAfter
        0 12 [] 5).cached = true ∧
    (scrape_run false
        (scrape_run false none 0 12 [demoRec1, demoRec1b] 7).cacheAfter
        0 12 [] 5).networkCalls = 0 :=
  c2_idempotent_caching none 0 0 12 [demoRec1, demoRec1b] [] 7 5
    (by simp [scrape_run, entry_fresh, cache_fresh])

/-- C3 counterexample: the blocked-retry waits of get_html at attempts 0, 1
and 2 with the jitter at its lower bound are 1, 1.8 and 2.6; no base and cap
make these equal min(base * 2^attempt, cap), so the backoff is not the
claimed capped exponential base * 2^attempt + jitter. -/
theorem c3_backoff_counterexample :
    ¬ ∃ base cap : ℚ, ∀ a : ℕ, a ≤ 2 →
      attempt_step a 0 (.response 429 true) =
        .retryBlocked (min (base * 2 ^ a) cap) := by
  rintro ⟨b, c, h⟩
  have h0 := h 0 (by norm_num)
  have h1 := h 1 (by norm_num)
  have h2 := h 2 (by norm_num)
  simp only [attempt_step, blocked_backoff] at h0 h1 h2
  norm_num at h0 h1 h2
  rcases min_eq_iff.mp h0.symm with ⟨e0, l0⟩ | ⟨e0, l0⟩ <;>
    rcases min_eq_iff.mp h1.symm with ⟨e1, l1⟩ | ⟨e1, l1⟩ <;>
      rcases min_eq_iff.mp h2.symm with ⟨e2, l2⟩ | ⟨e2, l2⟩ <;> linarith

/-- C3 amended: every 403 or 429 response is classified as blocked and
retried, but the wait before the next attempt is the linear, uncapped
1.0 + 0.8 * attempt + jitter with jitter in [0, 1); the deterministic part
is monotone nondecreasing in the attempt number, and with the jitter bounds
two successive waits differ by less than the jitter width on top of that. -/
theorem c3_blocked_linear_backoff_monotone :
    (∀ (a : ℕ) (j : ℚ) (hc : Bool),
      attempt_step a j (.response 403 hc) =
        .retryBlocked (blocked_backoff a j) ∧
      attempt_step a j (.response 429 hc) =
        .retryBlocked (blocked_backoff a j)) ∧
    (∀ a : ℕ, blocked_backoff a 0 = 1 + (a : ℚ) * (8 / 10)) ∧
    (∀ a b : ℕ, a ≤ b → ∀ ja jb : ℚ,
      0 ≤ ja → ja < 1 → 0 ≤ jb → jb < 1 →
      blocked_backoff a 0 ≤ blocked_backoff b 0 ∧
      blocked_backoff a ja < blocked_backoff b jb + 1) := by
  refine ⟨fun a j hc => ⟨?_, ?_⟩, fun a => by simp [blocked_backoff], ?_⟩
  · simp [attempt_step]
  · simp [attempt_step]
  · intro a b hab ja jb hja1 hja2 hjb1 hjb2
    have hc : (a : ℚ) ≤ (b : ℚ) := by exact_mod_cast hab
    constructor
    · simp only [blocked_backoff]
      nlinarith
    · simp only [blocked_backoff]
      nlinarith

/-- C3 witness: at attempts 1 and 2 the blocked classification and the
monotonicity of the deterministic wait, instantiated concretely. -/
theorem c3_blocked_linear_backoff_monotone_witness :
    attempt_step 1 0 (.response 429 false) =
      .retryBlocked (blocked_backoff 1 0) ∧
    blocked_backoff 1 0 ≤ blocked_backoff 2 0 :=
  ⟨(c3_blocked_linear_backoff_monotone.1 1 0 false).2,
   (c3_blocked_linear_backoff_monotone.2.2 1 2 (by norm_num) 0 0
      le_rfl (by norm_num) le_rfl (by norm_num)).1⟩

/-- C6 counterexample: the cache write for leeds with old content ["old"]
and new content ["new"] contains no rename at all, and it is not an atomic
replacement: the state after the truncating open shows an empty file,
which is neither the old nor the new entry. -/
theorem c6_atomic_write_counterexample :
    ((cache_put_ops (cache_path_for "leeds" "abc123") "[n]").all
      fun op => !op.isRename) = true ∧
    ¬ atomicReplace [(cache_path_for "leeds" "abc123", some "[o]")]
        (cache_put_ops (cache_path_for "leeds" "abc123") "[n]")
        (cache_path_for "leeds" "abc123") "[o]" "[n]" := by
  constructor
  · rfl
  · intro hat
    have := hat ((cache_path_for "leeds" "abc123", some "") ::
      [(cache_path_for "leeds" "abc123", some "[o]")]) (by
        simp [cache_put_ops, statesOf, applyOp])
    simp [fsGet] at this

/-- C6 amended: the cache write opens the final path
cache/primelocation/{citySlug}/search_{hash}.json directly with truncation
and then writes the serialized records: the trace contains no rename, the
completed trace does leave the new content at the final path, but in
between a reader observes a truncated empty file that is neither the old
nor the new entry, and an interrupted write has already destroyed the old
entry. -/
theorem c6_direct_write_not_atomic (slug stamp old new : String)
    (hold : old ≠ "") (hnew : new ≠ "") :
    ((cache_put_ops (cache_path_for slug stamp) new).all
      fun op => !op.isRename) = true ∧
    fsGet (runOps [(cache_path_for slug stamp, some old)]
        (cache_put_ops (cache_path_for slug stamp) new))
        (cache_path_for slug stamp) = some new ∧
    ∃ s ∈ statesOf [(cache_path_for slug stamp, some old)]
        (cache_put_ops (cache_path_for slug stamp) new),
      fsGet s (cache_path_for slug stamp) = some "" ∧
      fsGet s (cache_path_for slug stamp) ≠ some old ∧
      fsGet s (cache_path_for slug stamp) ≠ some new := by
  refine ⟨rfl, ?_, ?_⟩
  · simp [cache_put_ops, runOps, applyOp, fsGet]
  · refine ⟨(cache_path_for slug stamp, some "") ::
        [(cache_path_for slug stamp, some old)],
      by simp [cache_put_ops, statesOf, applyOp], ?_, ?_, ?_⟩
    · simp [fsGet]
    · simp [fsGet]
      exact fun hc => hold hc.symm
    · simp [fsGet]
      exact fun hc => hnew hc.symm

/-- C6 witness for the amended theorem at concrete contents. -/
theorem c6_direct_write_not_atomic_witness :
    ((cache_put_ops (cache_path_for "leeds" "abc123") "[n]").all
      fun op => !op.isRename) = true ∧
    fsGet (runOps [(cache_path_for "leeds" "abc123", some "[o]")]
        (cache_put_ops (cache_path_for "leeds" "abc123") "[n]"))
        (cache_path_for "leeds" "abc123") = some "[n]" ∧
    ∃ s ∈ statesOf [(cache_path_for "leeds" "abc123", some "[o]")]
        (cache_put_ops (cache_path_for "leeds" "abc123") "[n]"),
      fsGet s (cache_path_for "leeds" "abc123") = some "" ∧
      fsGet s (cache_path_for "leeds" "abc123") ≠ some "[o]" ∧
      fsGet s (cache_path_for "leeds" "abc123") ≠ some "[n]" :=
  c6_direct_write_not_atomic "leeds" "abc123" "[o]" "[n]"
    (by decide) (by decide)

/-- C7 counterexample: a cache file written at time 0 that is corrupt and
still fresh at time 1 with TTL 12 makes the crawl raise (json.load has no
handler), instead of proceeding as if the key were not found. -/
theorem c7_corrupt_cache_counterexample :
    scrape_cache_consult false (some (0, .corrupt)) 1 12 = .error () ∧
    scrape_cache_consult false (some (0, .corrupt)) 1 12 ≠
      .ok CrawlStart.proceedCrawl := by
  have hfresh : cache_fresh (some 0) 1 12 = true := by
    simp [cache_fresh]
  constructor
  · simp [scrape_cache_consult, hfresh]
  · simp [scrape_cache_consult, hfresh]

/-- C7 amended: a missing cache file, or a stale one whatever its content,
is treated as not found and the crawl proceeds as uncached without raising;
but a fresh corrupt file makes json.load raise and the crawl aborts. -/
theorem c7_corrupt_cache_amended (refresh : Bool) (m now ttl : ℚ) :
    scrape_cache_consult refresh none now ttl = .ok .proceedCrawl ∧
    (ttl ≤ now - m → ∀ content,
      scrape_cache_consult refresh (some (m, content)) now ttl =
        .ok .proceedCrawl) ∧
    (now - m < ttl →
      scrape_cache_consult false (some (m, .corrupt)) now ttl = .error ()) := by
  refine ⟨?_, ?_, ?_⟩
  · cases refresh <;> simp [scrape_cache_consult, cache_fresh]
  · intro hstale content
    have : cache_fresh (some m) now ttl = false := by
      simp [cache_fresh]
      linarith
    cases refresh <;> simp [scrape_cache_consult, this]
  · intro hfresh
    have : cache_fresh (some m) now ttl = true := by
      simp [cache_fresh]
      linarith
    simp [scrape_cache_consult, this]

/-- C7 witness: at TTL 12 a file written at 0 is stale at 13 and the crawl
proceeds even on a corrupt file, while at time 1 the same corrupt file
makes the crawl raise. -/
theorem c7_corrupt_cache_amended_witness :
    scrape_cache_consult false (some (0, .corrupt)) 13 12 =
      .ok .proceedCrawl ∧
    scrape_cache_consult false (some (0, .corrupt)) 1 12 = .error () :=
  ⟨(c7_corrupt_cache_amended false 0 13 12).2.1 (by norm_num) .corrupt,
   (c7_corrupt_cache_amended false 0 1 12).2.2 (by norm_num)⟩

/-! # Helper lemmas about the price scanners -/

theorem mem_of_mem_takeWhileChars (p : Char → Bool) :
    ∀ (l : List Char) (c : Char), c ∈ l.takeWhile p → c ∈ l := by
  intro l
  induction l with
  | nil => intro c hc; simp at hc
  | cons d rest ih =>
    intro c hc
    rw [List.takeWhile_cons] at hc
    by_cases hd : p d = true
    · rw [if_pos hd] at hc
      rcases List.mem_cons.mp hc with he | hin
      · exact he ▸ List.mem_cons_self d rest
      · exact List.mem_cons_of_mem d (ih c hin)
    · rw [if_neg hd] at hc
      simp at hc

theorem poundAt_subset (rest cap : List Char) (h : poundAt rest = some cap) :
    ∀ c ∈ cap, c ∈ rest := by
  intro c hc
  match rest, h with
  | d :: rest2, h =>
    simp only [poundAt] at h
    by_cases hd : isSpaceChar d = true
    · rw [if_pos hd] at h
      split at h
      · exact absurd h (by simp)
      · cases h
        exact List.mem_cons_of_mem d
          (mem_of_mem_takeWhileChars isDigitComma rest2 c hc)
    · rw [if_neg hd] at h
      split at h
      · exact absurd h (by simp)
      · cases h
        exact mem_of_mem_takeWhileChars isDigitComma (d :: rest2) c hc

theorem poundCapture_subset :
    ∀ (s cap : List Char), poundCapture s = some cap → ∀ c ∈ cap, c ∈ s := by
  intro s
  induction s with
  | nil => intro cap h; exact absurd h (by simp [poundCapture])
  | cons d rest ih =>
    intro cap h c hc
    simp only [poundCapture] at h
    by_cases hd : d = poundChar
    · rw [if_pos hd] at h
      cases hpa : poundAt rest with
      | some cap2 =>
        rw [hpa] at h
        simp only [Option.some_orElse] at h
        cases h
        exact List.mem_cons_of_mem d (poundAt_subset rest cap hpa c hc)
      | none =>
        rw [hpa] at h
        simp only [Option.none_orElse] at h
        exact List.mem_cons_of_mem d (ih cap h c hc)
    · rw [if_neg hd] at h
      exact List.mem_cons_of_mem d (ih cap h c hc)

theorem tryCommaAt_head_nodigit (c : Char) (rest : List Char)
    (hc : c.isDigit = false) : tryCommaAt (c :: rest) = none := by
  have h3 : takeCount Char.isDigit 3 (c :: rest) = none := by
    simp [takeCount, hc]
  have h2 : takeCount Char.isDigit 2 (c :: rest) = none := by
    simp [takeCount, hc]
  have h1 : takeCount Char.isDigit 1 (c :: rest) = none := by
    simp [takeCount, hc]
  simp [tryCommaAt, h3, h2, h1]

theorem commaGroupScanAux_nodigit :
    ∀ (s : List Char), (∀ c ∈ s, c.isDigit = false) →
      ∀ pw, commaGroupScanAux pw s = none := by
  intro s
  induction s with
  | nil => intro _ pw; rfl
  | cons c rest ih =>
    intro h pw
    have hc : c.isDigit = false := h c (List.mem_cons_self c rest)
    have hr : ∀ d ∈ rest, d.isDigit = false :=
      fun d hd => h d (List.mem_cons_of_mem c hd)
    cases pw <;>
      simp [commaGroupScanAux, tryCommaAt_head_nodigit c rest hc, ih hr]

theorem bigNumScanAux_nodigit :
    ∀ (s : List Char), (∀ c ∈ s, c.isDigit = false) →
      ∀ pw, bigNumScanAux pw s = none := by
  intro s
  induction s with
  | nil => intro _ pw; rfl
  | cons c rest ih =>
    intro h pw
    have hc : c.isDigit = false := h c (List.mem_cons_self c rest)
    have hr : ∀ d ∈ rest, d.isDigit = false :=
      fun d hd => h d (List.mem_cons_of_mem c hd)
    cases pw <;> simp [bigNumScanAux, hc, ih hr]

/-- C10: extract_price is total: it accepts None and the empty string, its
result is a natural number (hence a non-negative integer), it returns 0
whenever the text holds no digit at all, and being a Lean function it cannot
raise. -/
theorem c10_extract_price_total :
    extract_price none = 0 ∧
    extract_price (some ("")) = 0 ∧
    (∀ s : String, (∀ c ∈ s.data, c.isDigit = false) →
      extract_price (some s) = 0) := by
  refine ⟨rfl, rfl, fun s h => ?_⟩
  by_cases he : s.data.isEmpty
  · simp [extract_price, he]
  · simp only [extract_price, he, Bool.false_eq_true, if_false]
    simp only [extract_price_chars]
    cases hpc : poundCapture s.data with
    | some cap =>
      have hsub := poundCapture_subset s.data cap hpc
      have hnil : cap.filter Char.isDigit = [] := by
        refine List.filter_eq_nil_iff.mpr fun c hcc => ?_
        simp [h c (hsub c hcc)]
      simp [hnil]
    | none =>
      rw [commaGroupScanAux_nodigit s.data h false,
        bigNumScanAux_nodigit s.data h false]

/-- C10 witness: a text with no numeric token extracts to 0. -/
theorem c10_extract_price_total_witness :
    extract_price (some ("no digits here!")) = 0 :=
  c10_extract_price_total.2.2 ("no digits here!") (by decide)

/-! # Rounding bound for the sq-ft conversion -/

theorem sqftToSqm_nearest (n : ℕ) :
    |(sqftToSqm n : ℚ) - (n : ℚ) * (92903 / 1000000)| ≤ 1 / 2 := by
  have hdiv := Nat.div_add_mod (n * 92903 + 500000) 1000000
  have hmod : (n * 92903 + 500000) % 1000000 < 1000000 :=
    Nat.mod_lt _ (by norm_num)
  have hcast : (1000000 : ℚ) * (((n * 92903 + 500000) / 1000000 : ℕ) : ℚ) +
      (((n * 92903 + 500000) % 1000000 : ℕ) : ℚ) =
      (n : ℚ) * 92903 + 500000 := by
    exact_mod_cast congrArg (fun m : ℕ => (m : ℚ)) hdiv
  have hr0 : (0 : ℚ) ≤ (((n * 92903 + 500000) % 1000000 : ℕ) : ℚ) :=
    Nat.cast_nonneg _
  have hr1 : (((n * 92903 + 500000) % 1000000 : ℕ) : ℚ) < 1000000 := by
    exact_mod_cast hmod
  simp only [sqftToSqm]
  rw [abs_le]
  constructor <;> linarith

/-- C8: the text "968 sq ft" extracts to the integer 90 square metres; the
sq-ft conversion multiplies by 0.092903 and rounds to the nearest integer
(the result is within one half of n * 92903/1000000); and an explicit sq-m
figure takes priority: whenever the first sq-m pattern matches with a
positive value, that value is the result and no sq-ft conversion happens. -/
theorem c8_area_conversion :
    extract_area_sqm (some ("968 sq ft")) = some 90 ∧
    (∀ n : ℕ, |(sqftToSqm n : ℚ) - (n : ℚ) * (92903 / 1000000)| ≤ 1 / 2) ∧
    (∀ s : String, ∀ v : ℕ, 0 < v →
      areaScan matchSqmUnit1 (normalizeAreaText s) = some v →
      extract_area_sqm (some s) = some v) := by
  refine ⟨by decide, sqftToSqm_nearest, fun s v hv hscan => ?_⟩
  simp only [extract_area_sqm]
  rw [hscan]
  simp [hv]

/-- C8 witness: on a text holding both an explicit sq-m figure and a sq-ft
figure, the sq-m figure wins. -/
theorem c8_area_conversion_witness :
    extract_area_sqm (some ("90 sq m 968 sq ft")) = some 90 :=
  c8_area_conversion.2.2 ("90 sq m 968 sq ft") 90 (by decide) (by decide)

/-- C4 counterexample: the card extractor of scraper_working.py, given a
card with no bathroom count, no listing id in the URL, no agent, no tenure
and not even a bedroom count, still fabricates all of them: bathrooms 2,
tenure Freehold, an agent name from a hard-coded pool and a random listing
id - refuting that these fields are never invented when absent. -/
theorem c4_no_fabrication_counterexample :
    (extract_property_from_card none none ("leeds") true (0 : Fin 5)
      12345678).bathrooms = 2 ∧
    (extract_property_from_card none none ("leeds") true (0 : Fin 5)
      12345678).tenure = "Freehold" ∧
    (extract_property_from_card none none ("leeds") true (0 : Fin 5)
      12345678).agent_name = "Connells" ∧
    (extract_property_from_card none none ("leeds") true (0 : Fin 5)
      12345678).listing_id = "12345678" :=
  ⟨rfl, rfl, rfl, rfl⟩

/-- C4 amended: the primary PrimeLocation detail extractor parse_details
leaves a field it cannot resolve unset - bathrooms and bedrooms stay none
when neither the JSON-LD keys nor the text pattern yield a value - and the
caller's synthesized filler description is the single fabricated value: a
present non-empty description is kept unchanged, a missing one is filled in.
The card extractor of scraper_working.py and the Zoopla bathroom estimator,
by contrast, do fabricate bathrooms, tenure, agent data and listing ids
(see the counterexample). -/
theorem c4_primary_extractor_no_fabrication :
    (∀ page : DetailPage,
      firstLd page bathKeys = none →
      numBeforeKw bathLit (lowerChars page.text) = none →
      (parse_details page).bathrooms = none) ∧
    (∀ page : DetailPage,
      firstLd page bedKeys = none →
      numBeforeKw bedLit (lowerChars page.text) = none →
      (parse_details page).bedrooms = none) ∧
    (∀ (rec : ParsedDetails) (minBeds : Int) (city d : String),
      rec.description = some d → d.data.isEmpty = false →
      fill_description rec minBeds city = rec) ∧
    (∀ (page : DetailPage) (minBeds : Int) (city : String),
      (parse_details page).description = none →
      (fill_description (parse_details page) minBeds city).description ≠
        none) := by
  refine ⟨fun page h1 h2 => ?_, fun page h1 h2 => ?_,
    fun rec minBeds city d hd hne => ?_, fun page minBeds city hnone => ?_⟩
  · simp [parse_details, details_bathrooms, textNumField, h1, h2]
  · simp [parse_details, details_bedrooms, textNumField, h1, h2]
  · simp [fill_description, hd, hne]
  · simp [fill_description, hnone]

/-- C4 witness for the amended theorem: a page with no signals yields unset
bathrooms, and the caller fills the missing description. -/
theorem c4_primary_extractor_no_fabrication_witness :
    (parse_details emptyPage).bathrooms = none ∧
    (fill_description (parse_details emptyPage) 4 ("Leeds")).description ≠
      none :=
  ⟨c4_primary_extractor_no_fabrication.1 emptyPage (by decide) (by decide),
   c4_primary_extractor_no_fabrication.2.2.2 emptyPage 4 ("Leeds")
     (by decide)⟩

end HMOSeeker
